import Mathlib

/-!
Shallow embedding of `src/app.py` (AI-powered GIF animation agent).

The program is a linear LangGraph pipeline:
`generate_character_description → generate_plot → generate_image_prompts →
create_images → create_gif`.  External collaborators are embedded as
function-valued oracles:

* `llm : String → String` — the chat model (`llm.invoke`), mapping the
  prompt text given to it to the text of its reply;
* `gen : String → Nat → Option String` — the DALL-E image generation port
  (`client.images.generate`): for a prompt and an attempt index it returns
  `some url` when that attempt succeeds and `none` when that call raises;
* `resp : String → Nat × List Nat` — the HTTP layer used by
  `get_image_data` (`session.get`): for a URL it gives the response status
  and body bytes;
* `decode : List Nat → Frame` — `PIL.Image.open` on downloaded bytes.

`asyncio.gather(*tasks)` is documented to return the results in the order
of the task list regardless of completion order, so the batch stage is the
positional map of the per-prompt coroutine over the prompt list.
Machine-level byte strings are `List Nat`; the GIF byte blob is modelled
by the abstract artifact structure `GifArtifact` (serialisation of the
encoder's output is external to the program).
-/

/-- Decoded raster frame (`PIL.Image` object); its pixel content is opaque
to the program, so it is represented by the bytes it was decoded from. -/
abbrev Frame : Type := List Nat

/-- The animated artifact written by `images[0].save(gif_buffer,
format=..., save_all=True, append_images=images[1:], duration=1000,
loop=0)`: an ordered frame sequence with a fixed per-frame duration and a
loop count.  Modelled from the spec: the byte-level GIF container produced
by the external PIL encoder is abstracted to the data it records. -/
structure GifArtifact where
  frames : List Frame
  duration : Nat
  loopCount : Nat
deriving DecidableEq

/-- The LangGraph state dict (`class GraphState(TypedDict)` in the source).
`messages` is never touched by any node and is kept abstract. -/
structure GraphState where
  messages : List String
  query : String
  plot : String
  character_description : String
  image_prompts : List String
  image_urls : List (Option String)
  gif_data : Option GifArtifact

/-- The frame sequence a decoder reads back from the artifact (the
round-trip view of the animated encoding). Modelled from the spec:
"encoding N frames then decoding the artifact's frame count yields N". -/
def gifFrames (g : GifArtifact) : List Frame := g.frames

/-- The `if images:` branch of `create_gif`: on a non-empty frame list, the
first frame is saved with the remaining ones as `append_images`,
`duration=1000`, `loop=0`; on an empty list `gif_data` is set to `None`. -/
def encodeFrames : List Frame → Option GifArtifact
  | [] => none
  | f :: rest => some ⟨f :: rest, 1000, 0⟩

/-- Embeds `get_image_data(session, url)`: returns the body bytes when the
response status is 200, `None` otherwise. -/
def get_image_data (resp : String → Nat × List Nat) (url : String) :
    Option (List Nat) :=
  if (resp url).fst = 200 then some (resp url).snd else none

/-- Python truthiness filter of `[... for url in image_urls if url]`:
`None` and the empty string are falsy, any other string is kept. -/
def pyTruthyUrl : Option String → Option String
  | some u => if u = "" then none else some u
  | none => none

/-- The URLs `create_gif` actually downloads: the truthy elements of
`image_urls`, in order. -/
def fetchedUrls (urls : List (Option String)) : List String :=
  urls.filterMap pyTruthyUrl

/-- Python truthiness of `if img_data:` on a `bytes | None` value: `None`
and the empty byte string are falsy. -/
def pyTruthyBytes : Option (List Nat) → Option (List Nat)
  | some b => if b = [] then none else some b
  | none => none

/-- The `images` list built by `create_gif`: download every truthy URL,
then decode each truthy byte blob with `Image.open`, preserving the
original list order. -/
def decodedImages (resp : String → Nat × List Nat)
    (decode : List Nat → Frame) (urls : List (Option String)) : List Frame :=
  ((fetchedUrls urls).map (get_image_data resp)).filterMap
    (fun d => (pyTruthyBytes d).map decode)

/-- Trace of one `create_image` call: the returned value (`url` or
`None`), how many times the generation port was invoked, and the sequence
of `asyncio.sleep` backoff delays performed, in order (each is 2 time
units in the source). -/
structure CreateImageTrace where
  result : Option String
  calls : Nat
  delays : List Nat
deriving DecidableEq, Repr

/-- The `for attempt in range(retries):` loop of `create_image`, with
`n` iterations remaining and `i` the current value of `attempt`.  A
successful port call returns the URL at once; a failing call on the last
iteration (`attempt == retries - 1`) returns `None`; otherwise the task
sleeps 2 units and retries.  Falling out of the loop returns `None` with
no port call. -/
def create_image_go (gen : Nat → Option String) : Nat → Nat → CreateImageTrace
  | 0, _ => ⟨none, 0, []⟩
  | n + 1, i =>
    match gen i with
    | some url => ⟨some url, 1, []⟩
    | none =>
      if n = 0 then ⟨none, 1, []⟩
      else
        let t := create_image_go gen n (i + 1)
        ⟨t.result, t.calls + 1, 2 :: t.delays⟩

/-- Embeds `create_image(prompt, retries)` for a fixed prompt, with the port
specialised to that prompt.  `retries` is a Python `int`; `range(retries)`
is empty when it is non-positive. -/
def create_image (gen : Nat → Option String) (retries : Int) :
    CreateImageTrace :=
  create_image_go gen retries.toNat 0

/-- Embeds `create_images`: one `create_image(prompt)` task per prompt (default
`retries=3`), gathered positionally into `image_urls`. -/
def create_images (gen : String → Nat → Option String) (s : GraphState) :
    GraphState :=
  { s with image_urls :=
      s.image_prompts.map (fun p => (create_image (gen p) 3).result) }

/-- Embeds `create_gif`: download all truthy URLs, decode the truthy bodies, and
set `gif_data` to the encoded artifact, or to `None` when no frame was
obtained. -/
def create_gif (resp : String → Nat × List Nat)
    (decode : List Nat → Frame) (s : GraphState) : GraphState :=
  { s with gif_data := encodeFrames (decodedImages resp decode s.image_urls) }

/-- The prompt text `generate_character_description` sends to the model. -/
def characterDescriptionQuery (query : String) : String :=
  "Based on the query \x27" ++ query ++ "\x27, create a detailed description of the main character, object, or scene. Include specific details about appearance, characteristics, and any unique features. This description will be used to maintain consistency across multiple images."

/-- The `generate_character_description` node. -/
def generate_character_description (llm : String → String) (s : GraphState) :
    GraphState :=
  { s with character_description := llm (characterDescriptionQuery s.query) }

/-- The prompt text `generate_plot` sends to the model. -/
def plotQuery (query character_description : String) : String :=
  "Create a short, 5-step plot for a GIF based on this query: \x27" ++ query ++ "\x27 and featuring this description: " ++ character_description ++ ". Each step should be a brief description of a single frame, maintaining consistency throughout. Keep it family-friendly and avoid any sensitive themes."

/-- The `generate_plot` node. -/
def generate_plot (llm : String → String) (s : GraphState) : GraphState :=
  { s with plot := llm (plotQuery s.query s.character_description) }

/-- The prompt text `generate_image_prompts` sends to the model. -/
def imagePromptsQuery (plot character_description : String) : String :=
  "Based on this plot: \x27" ++ plot ++ "\x27 and featuring this description: " ++ character_description ++ ", generate 5 specific, family-friendly image prompts, one for each step. Each prompt should be detailed enough for image generation, maintaining consistency, and suitable for DALL-E. \n\nAlways include the following in EVERY prompt to maintain consistency:\n1. A brief reminder of the main character or object\x27s key features\n2. The specific action or scene described in the plot step\n3. Any relevant background or environmental details\n\nFormat each prompt as a numbered list item, like this:\n1. [Your prompt here]\n2. [Your prompt here]\n... and so on."

/-- Python `str.split(sep)` for a single-character separator (as in
`response.content.split('\n')`): splitting the empty string yields one
empty piece, and every separator occurrence starts a new piece. -/
def pySplitOnChar (sep : Char) : List Char → List (List Char)
  | [] => [[]]
  | c :: cs =>
    match pySplitOnChar sep cs with
    | [] => [[]]
    | h :: t => if c = sep then [] :: h :: t else (c :: h) :: t

/-- The whitespace characters `str.strip()` removes (ASCII range). -/
def pyIsSpace (c : Char) : Bool :=
  c = ' ' || c = '\t' || c = '\n' || c = '\r' || c = '\x0b' || c = '\x0c'

/-- Python `str.strip()`: drop leading and trailing whitespace. -/
def pyStrip (l : List Char) : List Char :=
  ((l.dropWhile pyIsSpace).reverse.dropWhile pyIsSpace).reverse

/-- Embeds `line.strip().startswith(('1.', '2.', '3.', '4.', '5.'))`. -/
def isNumberedLine (line : List Char) : Bool :=
  [['1', '.'], ['2', '.'], ['3', '.'], ['4', '.'], ['5', '.']].any
    (fun p => p.isPrefixOf (pyStrip line))

/-- Embeds `line.split('.', 1)[1]`: everything after the first `.` of the line.
Total with `[]` on a dot-free line; under the numbered-line guard the
line always contains a dot, so that case is unreachable in the program. -/
def afterFirstDot : List Char → List Char
  | [] => []
  | c :: cs => if c = '.' then cs else afterFirstDot cs

/-- The prompt-extraction loop of `generate_image_prompts`: keep each line
whose stripped form starts with a `1.`–`5.` tag, take the text after the
first dot, strip it, and prefix the fixed instruction. -/
def parsePrompts (content : String) : List String :=
  ((pySplitOnChar '\n' content.data).filter isNumberedLine).map
    (fun line =>
      "Create a detailed, photorealistic image of the following scene: "
        ++ String.mk (pyStrip (afterFirstDot line)))

/-- The `generate_image_prompts` node: parse the model reply; raise
`ValueError` (modelled as `Except.error`) unless exactly 5 prompts were
extracted. -/
def generate_image_prompts (llm : String → String) (s : GraphState) :
    Except String GraphState :=
  let prompts := parsePrompts (llm (imagePromptsQuery s.plot s.character_description))
  if prompts.length ≠ 5 then
    Except.error ("Expected 5 prompts, but got " ++ toString prompts.length
      ++ ". Please try again.")
  else
    Except.ok { s with image_prompts := prompts }

/-- Embeds `app.ainvoke(initial_state)`: the compiled linear graph.  A raised
`ValueError` in a node aborts the run and propagates as an exception. -/
def app_invoke (llm : String → String) (gen : String → Nat → Option String)
    (resp : String → Nat × List Nat) (decode : List Nat → Frame)
    (s : GraphState) : Except String GraphState :=
  let s2 := generate_plot llm (generate_character_description llm s)
  match generate_image_prompts llm s2 with
  | Except.error e => Except.error e
  | Except.ok s3 => Except.ok (create_gif resp decode (create_images gen s3))

/-- Number of calls the run makes to the image-generation port: zero when
the run aborts before `create_images`, otherwise the attempts made by the
per-prompt retry loops. -/
def app_invoke_genCalls (llm : String → String)
    (gen : String → Nat → Option String) (s : GraphState) : Nat :=
  let s2 := generate_plot llm (generate_character_description llm s)
  match generate_image_prompts llm s2 with
  | Except.error _ => 0
  | Except.ok s3 =>
      (s3.image_prompts.map (fun p => (create_image (gen p) 3).calls)).sum

/-- The `initial_state` dict built by `run_workflow`. -/
def initial_state (query : String) : GraphState :=
  ⟨[], query, "", "", [], [], none⟩

/-- Embeds `run_workflow(query)`: invoke the graph on the initial state and hand
the resulting state to the caller; the `except` clause turns any raised
error into `None`. -/
def run_workflow (llm : String → String) (gen : String → Nat → Option String)
    (resp : String → Nat × List Nat) (decode : List Nat → Frame)
    (query : String) : Option GraphState :=
  match app_invoke llm gen resp decode (initial_state query) with
  | Except.ok r => some r
  | Except.error _ => none

/-- Number of successfully generated frames visible to the caller: the
non-null entries of `image_urls` in the returned state. -/
def successCount (s : GraphState) : Nat :=
  (s.image_urls.filter (fun u => u.isSome)).length

/-! ## Helper lemmas about the retry loop -/

theorem create_image_go_calls_le (gen : Nat → Option String) :
    ∀ n i, (create_image_go gen n i).calls ≤ n := by
  intro n
  induction n with
  | zero => intro i; simp [create_image_go]
  | succ m ih =>
    intro i
    simp only [create_image_go]
    cases gen i with
    | some url => simp
    | none =>
      by_cases hm : m = 0
      · simp [hm]
      · simp only [hm, if_false]
        exact Nat.succ_le_succ (ih (i + 1))

theorem create_image_go_first_success (gen : Nat → Option String) :
    ∀ n i j u, j < n → (∀ d, d < j → gen (i + d) = none) →
      gen (i + j) = some u →
      create_image_go gen n i = ⟨some u, j + 1, List.replicate j 2⟩ := by
  intro n
  induction n with
  | zero => intro i j u hj; omega
  | succ m ih =>
    intro i j u hj hfail hsucc
    cases j with
    | zero =>
      simp only [Nat.add_zero] at hsucc
      simp [create_image_go, hsucc]
    | succ j' =>
      have h0 : gen i = none := by
        have := hfail 0 (Nat.succ_pos j')
        simpa using this
      have hm : m ≠ 0 := by omega
      simp only [create_image_go, h0, hm, if_false]
      have hrec : create_image_go gen m (i + 1) =
          ⟨some u, j' + 1, List.replicate j' 2⟩ := by
        apply ih (i + 1) j' u (by omega)
        · intro d hd
          have := hfail (d + 1) (by omega)
          simpa [Nat.add_assoc, Nat.add_comm 1 d] using this
        · have : i + 1 + j' = i + (j' + 1) := by omega
          rw [this]; exact hsucc
      rw [hrec]
      simp [List.replicate_succ]

theorem create_image_go_all_fail (gen : Nat → Option String) :
    ∀ n i, 1 ≤ n → (∀ d, d < n → gen (i + d) = none) →
      create_image_go gen n i = ⟨none, n, List.replicate (n - 1) 2⟩ := by
  intro n
  induction n with
  | zero => intro i h; omega
  | succ m ih =>
    intro i _ hfail
    have h0 : gen i = none := by simpa using hfail 0 (Nat.succ_pos m)
    by_cases hm : m = 0
    · subst hm; simp [create_image_go, h0]
    · simp only [create_image_go, h0, hm, if_false]
      have hrec : create_image_go gen m (i + 1) =
          ⟨none, m, List.replicate (m - 1) 2⟩ := by
        apply ih (i + 1) (by omega)
        intro d hd
        have := hfail (d + 1) (by omega)
        simpa [Nat.add_assoc, Nat.add_comm 1 d] using this
      rw [hrec]
      have hrep : List.replicate m 2 = 2 :: List.replicate (m - 1) 2 := by
        cases m with
        | zero => exact absurd rfl hm
        | succ m' => simp [List.replicate]
      simp [hrep]

/-! ## Claims -/

/-- Claim C2. For every prompt and every `maxAttempts = k ≥ 1`,
`create_image` calls the generation port at most `k` times; a first
success at attempt `j` returns that URL immediately after `j + 1` calls
with a 2-unit delay after each of the `j` failures; and if every attempt
fails it returns `None` after exactly `k` calls with exactly `k - 1`
2-unit delays between consecutive attempts (none after the last). -/
theorem create_image_retry_contract (gen : Nat → Option String) (k : Nat)
    (hk : 1 ≤ k) :
    (create_image gen (k : Int)).calls ≤ k ∧
    (∀ j u, j < k → (∀ i, i < j → gen i = none) → gen j = some u →
      create_image gen (k : Int) = ⟨some u, j + 1, List.replicate j 2⟩) ∧
    ((∀ i, i < k → gen i = none) →
      create_image gen (k : Int) = ⟨none, k, List.replicate (k - 1) 2⟩) := by
  have htn : (k : Int).toNat = k := Int.toNat_natCast k
  unfold create_image
  rw [htn]
  refine ⟨create_image_go_calls_le gen k 0, ?_, ?_⟩
  · intro j u hj hfail hsucc
    apply create_image_go_first_success gen k 0 j u hj
    · intro d hd; simpa using hfail d hd
    · simpa using hsucc
  · intro hfail
    apply create_image_go_all_fail gen k 0 hk
    intro d hd; simpa using hfail d hd

/-- Witness for C2 at `k = 3` and a port that succeeds on attempt 1. -/
theorem create_image_retry_contract_witness :
    create_image (fun i => if i = 1 then some "u" else none) ((3 : Nat) : Int)
      = ⟨some "u", 2, [2]⟩ :=
  (create_image_retry_contract (fun i => if i = 1 then some "u" else none) 3
      (by decide)).2.1 1 "u" (by decide) (by decide) (by decide)

/-- Claim C8. With `retries ≤ 0` the `for attempt in range(retries)` loop
body never runs: `create_image` returns `None` having made no port call
and no delay; the spec's precondition `maxAttempts ≥ 1` is not enforced. -/
theorem create_image_nonpositive_retries (gen : Nat → Option String)
    (r : Int) (hr : r ≤ 0) :
    create_image gen r = ⟨none, 0, []⟩ := by
  unfold create_image
  rw [Int.toNat_of_nonpos hr]
  rfl

/-- Witness for C8 at `retries = -1` and a port that would always
succeed. -/
theorem create_image_nonpositive_retries_witness :
    create_image (fun _ => some "u") (-1) = ⟨none, 0, []⟩ :=
  create_image_nonpositive_retries (fun _ => some "u") (-1) (by decide)

/-- Claim C1. For every prompt list of length `N`, `create_images` stores a
reference list of length exactly `N`, and position `i` holds exactly the
result (`some url` or `None`) of the retrying generation run on
`prompts[i]`: `asyncio.gather` reassembles results positionally, never by
completion order. -/
theorem create_images_positional (gen : String → Nat → Option String)
    (s : GraphState) :
    (create_images gen s).image_urls.length = s.image_prompts.length ∧
    (∀ i p, s.image_prompts.get? i = some p →
      (create_images gen s).image_urls.get? i =
        some (create_image (gen p) 3).result) := by
  constructor
  · simp [create_images]
  · intro i p hp
    simp only [create_images]
    rw [List.get?_eq_getElem?] at hp ⊢
    rw [List.getElem?_map, hp]
    rfl

/-- Witness for C1 on a two-prompt batch whose second generation always
fails: position 1 holds `None` for prompt `"b"`. -/
theorem create_images_positional_witness :
    (create_images
        (fun p _ => if p = "a" then some "ua" else none)
        ⟨[], "", "", "", ["a", "b"], [], none⟩).image_urls.get? 1 =
      some (create_image
        ((fun p _ => if p = "a" then some "ua" else none) "b") 3).result :=
  (create_images_positional
      (fun p _ => if p = "a" then some "ua" else none)
      ⟨[], "", "", "", ["a", "b"], [], none⟩).2 1 "b" (by decide)

/-- Claim C10. Each stage writes only its designated state field:
`create_images` sets only `image_urls` and `create_gif` sets only
`gif_data`; every other field of the graph state is unchanged. -/
theorem stages_frame_condition (gen : String → Nat → Option String)
    (resp : String → Nat × List Nat) (decode : List Nat → Frame)
    (s : GraphState) :
    ((create_images gen s).messages = s.messages ∧
     (create_images gen s).query = s.query ∧
     (create_images gen s).plot = s.plot ∧
     (create_images gen s).character_description = s.character_description ∧
     (create_images gen s).image_prompts = s.image_prompts ∧
     (create_images gen s).gif_data = s.gif_data) ∧
    ((create_gif resp decode s).messages = s.messages ∧
     (create_gif resp decode s).query = s.query ∧
     (create_gif resp decode s).plot = s.plot ∧
     (create_gif resp decode s).character_description = s.character_description ∧
     (create_gif resp decode s).image_prompts = s.image_prompts ∧
     (create_gif resp decode s).image_urls = s.image_urls) := by
  refine ⟨⟨rfl, rfl, rfl, rfl, rfl, rfl⟩, rfl, rfl, rfl, rfl, rfl, rfl⟩

/-- Claim C3. `create_gif` stores a (necessarily non-empty) artifact iff at
least one frame was successfully downloaded and decoded; on an all-null
reference list it stores `None` rather than raising. -/
theorem create_gif_empty_iff (resp : String → Nat × List Nat)
    (decode : List Nat → Frame) (s : GraphState) :
    ((create_gif resp decode s).gif_data ≠ none ↔
      decodedImages resp decode s.image_urls ≠ []) ∧
    ((∀ u ∈ s.image_urls, u = none) →
      (create_gif resp decode s).gif_data = none) := by
  constructor
  · simp only [create_gif]
    cases h : decodedImages resp decode s.image_urls with
    | nil => simp [encodeFrames, h]
    | cons f rest => simp [encodeFrames, h]
  · intro hnull
    have hfetch : fetchedUrls s.image_urls = [] := by
      rw [fetchedUrls, List.filterMap_eq_nil_iff]
      intro u hu
      rw [hnull u hu]
      rfl
    simp [create_gif, decodedImages, hfetch, encodeFrames]

/-- Witness for C3: on `image_urls = [None, None]` the stored `gif_data`
is `None`. -/
theorem create_gif_empty_iff_witness :
    (create_gif (fun _ => (200, [1])) id
      ⟨[], "", "", "", [], [none, none], none⟩).gif_data = none :=
  (create_gif_empty_iff (fun _ => (200, [1])) id
      ⟨[], "", "", "", [], [none, none], none⟩).2 (by decide)

/-- Claim C6. Encoding any non-empty list of `N` decoded frames yields an
artifact whose decoded frame sequence has exactly `N` frames: the
animated encoding preserves frame count. -/
theorem gif_roundtrip_frame_count (frames : List Frame)
    (h : frames ≠ []) :
    ∃ g, encodeFrames frames = some g ∧
      (gifFrames g).length = frames.length := by
  cases frames with
  | nil => exact absurd rfl h
  | cons f rest => exact ⟨⟨f :: rest, 1000, 0⟩, rfl, rfl⟩

/-- Witness for C6 on two concrete frames. -/
theorem gif_roundtrip_frame_count_witness :
    ∃ g, encodeFrames [[1], [2]] = some g ∧
      (gifFrames g).length = ([[1], [2]] : List Frame).length :=
  gif_roundtrip_frame_count [[1], [2]] (by decide)

/-- Claim C4. On a reference list of 3 valid references and 2 nulls (nulls at
positions 1 and 3) whose downloads succeed, `create_gif` produces an
artifact holding exactly the 3 frames of the valid positions, in their
original relative order; null positions are omitted, not kept as blank
frames. -/
theorem create_gif_skips_nulls (resp : String → Nat × List Nat)
    (decode : List Nat → Frame) (s : GraphState)
    (r1 r3 r5 : String) (b1 b3 b5 : List Nat)
    (hurls : s.image_urls = [some r1, none, some r3, none, some r5])
    (h1 : r1 ≠ "") (h3 : r3 ≠ "") (h5 : r5 ≠ "")
    (hr1 : resp r1 = (200, b1)) (hr3 : resp r3 = (200, b3))
    (hr5 : resp r5 = (200, b5))
    (hb1 : b1 ≠ []) (hb3 : b3 ≠ []) (hb5 : b5 ≠ []) :
    (create_gif resp decode s).gif_data =
      some ⟨[decode b1, decode b3, decode b5], 1000, 0⟩ := by
  simp [create_gif, decodedImages, fetchedUrls, pyTruthyUrl, hurls,
    get_image_data, pyTruthyBytes, encodeFrames, hr1, hr3, hr5,
    h1, h3, h5, hb1, hb3, hb5]

/-- Witness for C4 with concrete URLs, bodies and the identity decoder. -/
theorem create_gif_skips_nulls_witness :
    (create_gif
        (fun u => if u = "r1" then (200, [1]) else
          if u = "r3" then (200, [3]) else (200, [5]))
        id
        ⟨[], "", "", "", [], [some "r1", none, some "r3", none, some "r5"],
          none⟩).gif_data =
      some ⟨[id [1], id [3], id [5]], 1000, 0⟩ :=
  create_gif_skips_nulls
    (fun u => if u = "r1" then (200, [1]) else
      if u = "r3" then (200, [3]) else (200, [5]))
    id
    ⟨[], "", "", "", [], [some "r1", none, some "r3", none, some "r5"], none⟩
    "r1" "r3" "r5" [1] [3] [5] rfl (by decide) (by decide) (by decide)
    (by decide) (by decide) (by decide) (by decide) (by decide) (by decide)

/-- Claim C9. `create_gif` downloads only the truthy references — both
`None` and the empty string are skipped without a network call — and a
download whose response status is not 200 yields `None` from
`get_image_data`, so that frame is omitted while every other frame is
still included. -/
theorem download_filter_and_status (resp : String → Nat × List Nat)
    (decode : List Nat → Frame) (s : GraphState)
    (r1 rbad r2 : String) (b1 b2 : List Nat)
    (hurls : s.image_urls = [some r1, some "", none, some rbad, some r2])
    (h1 : r1 ≠ "") (hb : rbad ≠ "") (h2 : r2 ≠ "")
    (hstat : (resp rbad).fst ≠ 200)
    (hr1 : resp r1 = (200, b1)) (hr2 : resp r2 = (200, b2))
    (hb1 : b1 ≠ []) (hb2 : b2 ≠ []) :
    fetchedUrls s.image_urls = [r1, rbad, r2] ∧
    get_image_data resp rbad = none ∧
    (create_gif resp decode s).gif_data =
      some ⟨[decode b1, decode b2], 1000, 0⟩ := by
  have hfetch : fetchedUrls s.image_urls = [r1, rbad, r2] := by
    simp [fetchedUrls, pyTruthyUrl, hurls, h1, hb, h2]
  have hbad : get_image_data resp rbad = none := by
    simp [get_image_data, hstat]
  refine ⟨hfetch, hbad, ?_⟩
  simp [create_gif, decodedImages, hfetch, get_image_data,
    pyTruthyBytes, encodeFrames, hr1, hr2, hb1, hb2, hstat]

/-- Witness for C9: URLs `"good1"`, `""`, `None`, `"bad"` (status 404)
and `"good2"`; only the two good frames appear, in order. -/
theorem download_filter_and_status_witness :
    fetchedUrls [some "good1", some "", none, some "bad", some "good2"] =
      ["good1", "bad", "good2"] ∧
    get_image_data
      (fun u => if u = "bad" then (404, [9]) else (200, [7])) "bad" = none ∧
    (create_gif (fun u => if u = "bad" then (404, [9]) else (200, [7])) id
      ⟨[], "", "", "", [],
        [some "good1", some "", none, some "bad", some "good2"],
        none⟩).gif_data = some ⟨[id [7], id [7]], 1000, 0⟩ :=
  download_filter_and_status
    (fun u => if u = "bad" then (404, [9]) else (200, [7])) id
    ⟨[], "", "", "", [],
      [some "good1", some "", none, some "bad", some "good2"], none⟩
    "good1" "bad" "good2" [7] [7] rfl (by decide) (by decide) (by decide)
    (by decide) (by decide) (by decide) (by decide) (by decide)

/-- Claim C5. When the parsing loop of `generate_image_prompts` extracts a
number of numbered lines different from 5 from the model reply, the run
raises the `ValueError` before `create_images` starts: the graph
invocation returns that error and the image-generation port is called
zero times. -/
theorem prompt_validation_aborts (llm : String → String)
    (gen : String → Nat → Option String) (resp : String → Nat × List Nat)
    (decode : List Nat → Frame) (s0 : GraphState) (content : String)
    (hc : content = llm (imagePromptsQuery
      (generate_plot llm (generate_character_description llm s0)).plot
      (generate_plot llm
        (generate_character_description llm s0)).character_description))
    (h : (parsePrompts content).length ≠ 5) :
    app_invoke llm gen resp decode s0 =
      Except.error ("Expected 5 prompts, but got "
        ++ toString (parsePrompts content).length
        ++ ". Please try again.") ∧
    app_invoke_genCalls llm gen s0 = 0 := by
  subst hc
  constructor
  · simp [app_invoke, generate_image_prompts, h]
  · simp [app_invoke_genCalls, generate_image_prompts, h]

/-- Witness for C5: a model reply with no numbered lines (0 ≠ 5 prompts)
aborts the run with the `ValueError` and zero generation calls. -/
theorem prompt_validation_aborts_witness :
    app_invoke (fun _ => "") (fun _ _ => some "u") (fun _ => (200, [1])) id
        (initial_state "q") =
      Except.error ("Expected 5 prompts, but got "
        ++ toString (parsePrompts "").length ++ ". Please try again.") ∧
    app_invoke_genCalls (fun _ => "") (fun _ _ => some "u")
      (initial_state "q") = 0 :=
  prompt_validation_aborts (fun _ => "") (fun _ _ => some "u")
    (fun _ => (200, [1])) id (initial_state "q") "" rfl (by decide)

/-- Claim C7. Whenever a run passes prompt validation (so the core is
entered), `run_workflow` hands the caller a final state in which
`image_urls` has exactly the 5 positions, the number of non-null entries
equals the number of prompts whose retrying generation succeeded (the
per-frame success count), and `gif_data` is either explicitly `None` or
an artifact with a non-empty frame sequence. -/
theorem run_workflow_reports (llm : String → String)
    (gen : String → Nat → Option String) (resp : String → Nat × List Nat)
    (decode : List Nat → Frame) (query : String) (prompts : List String)
    (hp : prompts = parsePrompts (llm (imagePromptsQuery
      (generate_plot llm (generate_character_description llm
        (initial_state query))).plot
      (generate_plot llm (generate_character_description llm
        (initial_state query))).character_description)))
    (h5 : prompts.length = 5) :
    ∃ s, run_workflow llm gen resp decode query = some s ∧
      s.image_urls.length = 5 ∧
      successCount s = (prompts.filter
        (fun p => ((create_image (gen p) 3).result).isSome)).length ∧
      (s.gif_data = none ∨
        ∃ g, s.gif_data = some g ∧ gifFrames g ≠ []) := by
  subst hp
  have hok : generate_image_prompts llm
      (generate_plot llm (generate_character_description llm
        (initial_state query))) =
      Except.ok { generate_plot llm (generate_character_description llm
          (initial_state query)) with
        image_prompts := parsePrompts (llm (imagePromptsQuery
          (generate_plot llm (generate_character_description llm
            (initial_state query))).plot
          (generate_plot llm (generate_character_description llm
            (initial_state query))).character_description)) } := by
    simp [generate_image_prompts, h5]
  refine ⟨create_gif resp decode (create_images gen
    { generate_plot llm (generate_character_description llm
        (initial_state query)) with
      image_prompts := parsePrompts (llm (imagePromptsQuery
        (generate_plot llm (generate_character_description llm
          (initial_state query))).plot
        (generate_plot llm (generate_character_description llm
          (initial_state query))).character_description)) }), ?_, ?_, ?_, ?_⟩
  · simp only [run_workflow, app_invoke]
    rw [hok]
  · simp [create_gif, create_images, h5]
  · simp only [successCount, create_gif, create_images, List.filter_map,
      List.length_map]
    rfl
  · cases himg : decodedImages resp decode
      (create_images gen { generate_plot llm
          (generate_character_description llm (initial_state query)) with
        image_prompts := parsePrompts (llm (imagePromptsQuery
          (generate_plot llm (generate_character_description llm
            (initial_state query))).plot
          (generate_plot llm (generate_character_description llm
            (initial_state query))).character_description)) }).image_urls with
    | nil => exact Or.inl (by simp [create_gif, himg, encodeFrames])
    | cons f rest =>
      exact Or.inr ⟨⟨f :: rest, 1000, 0⟩,
        by simp [create_gif, himg, encodeFrames],
        by simp [gifFrames]⟩

/-- Witness for C7: a model reply with exactly 5 numbered lines and a
port that always fails; the caller receives a state with 5 null entries,
success count 0 and `gif_data = None`. -/
theorem run_workflow_reports_witness :
    ∃ s, run_workflow (fun _ => "1. a\n2. b\n3. c\n4. d\n5. e")
        (fun _ _ => none) (fun _ => (200, [1])) id "q" = some s ∧
      s.image_urls.length = 5 ∧
      successCount s =
        ((parsePrompts "1. a\n2. b\n3. c\n4. d\n5. e").filter
          (fun p => ((create_image ((fun _ _ => none : String → Nat →
            Option String) p) 3).result).isSome)).length ∧
      (s.gif_data = none ∨
        ∃ g, s.gif_data = some g ∧ gifFrames g ≠ []) :=
  run_workflow_reports (fun _ => "1. a\n2. b\n3. c\n4. d\n5. e")
    (fun _ _ => none) (fun _ => (200, [1])) id "q"
    (parsePrompts "1. a\n2. b\n3. c\n4. d\n5. e") rfl (by decide)
